import Mathlib

/-!
Verification development for the birdGrid gallery scripts.

The repository contains three iterations of the same browser script
(script.js and two unnamed script files) plus a README.  The definitions
below are shallow embeddings of the image-resolution fallback chain, the
filename filters, the stock-photo scoring and selection logic, the
per-card image cycling state machine, the image onerror fallback and the
live text filter.  Network requests are modelled by explicit outcome
values (thrown fetch, non-success response, or parsed payload) supplied
through environment records; JavaScript string methods are modelled by
executable helpers over the character list of a string.
-/

/-- Model of the test "sub is at the start of s" used by substring search. -/
def listStartsWith : List Char → List Char → Bool
  | _, [] => true
  | [], _ :: _ => false
  | c :: cs, d :: ds => c == d && listStartsWith cs ds

/-- Model of substring containment on character lists. -/
def listHasSub : List Char → List Char → Bool
  | [], sub => listStartsWith [] sub
  | c :: cs, sub => listStartsWith (c :: cs) sub || listHasSub cs sub

/-- Model of the JavaScript String.toLowerCase method (per-character lowering). -/
def jsToLower (s : String) : String := String.mk (s.data.map Char.toLower)

/-- Model of the JavaScript String.includes method. -/
def jsIncludes (s sub : String) : Bool := listHasSub s.data sub.data

/-- Model of the JavaScript String.endsWith method. -/
def jsEndsWith (s suffix : String) : Bool := suffix.data.isSuffixOf s.data

/-- UTF-8 byte values of a character, used by the URI encoder. -/
def utf8Bytes (c : Char) : List Nat :=
  let n := c.toNat
  if n < 128 then [n]
  else if n < 2048 then [192 + n / 64, 128 + n % 64]
  else if n < 65536 then [224 + n / 4096, 128 + (n / 64) % 64, 128 + n % 64]
  else [240 + n / 262144, 128 + (n / 4096) % 64, 128 + (n / 64) % 64, 128 + n % 64]

/-- Upper-case hexadecimal digit for a value below 16. -/
def hexDigit (n : Nat) : Char :=
  if n < 10 then Char.ofNat (48 + n) else Char.ofNat (55 + n)

/-- Characters that encodeURIComponent leaves unescaped. -/
def isUnreservedURIChar (c : Char) : Bool :=
  c.isAlpha || c.isDigit ||
    c ∈ [Char.ofNat 45, Char.ofNat 95, Char.ofNat 46, Char.ofNat 33,
         Char.ofNat 126, Char.ofNat 42, Char.ofNat 39, Char.ofNat 40, Char.ofNat 41]

/-- Percent-encoding of one character. -/
def encodeChar (c : Char) : List Char :=
  if isUnreservedURIChar c then [c]
  else ((utf8Bytes c).map (fun b => [Char.ofNat 37, hexDigit (b / 16), hexDigit (b % 16)])).flatten

/-- Model of the JavaScript encodeURIComponent function. -/
def encodeURIComponent (s : String) : String :=
  String.mk ((s.data.map encodeChar).flatten)

/-- Replace the first occurrence of pat in the character list by repl. -/
def replaceFirstAux (pat repl : List Char) : List Char → List Char
  | [] => []
  | c :: cs =>
    if listStartsWith (c :: cs) pat then repl ++ (c :: cs).drop pat.length
    else c :: replaceFirstAux pat repl cs

/-- Model of the JavaScript String.replace method with a plain-string pattern,
which replaces only the first occurrence. -/
def replaceFirst (s pat repl : String) : String :=
  String.mk (replaceFirstAux pat.data repl.data s.data)

/-- Placeholder image URL built from the common name, as in
img.src (backtick template) placehold.co/300x200?text=encodeURIComponent(commonName). -/
def placeholderUrl (commonName : String) : String :=
  "https://placehold.co/300x200?text=" ++ encodeURIComponent commonName

/-- Image object pushed by script.js: a direct URL plus a source page link. -/
structure ImageCandidate where
  url : String
  link : String
deriving DecidableEq, Repr

/-- Outcome of one fetch call: the promise rejected (or the JSON parse threw),
the response had response.ok false, or it succeeded with a parsed payload. -/
inductive FetchOutcome (α : Type) where
  | networkError
  | httpError
  | success (data : α)
deriving DecidableEq, Repr

/-- Filename filter of fetchBirdImagesFromCommons in script.js, used identically
for the category listing (step 1) and the direct search (step 2). -/
def commonsKeep (itemTitle : String) : Bool :=
  let title := jsToLower itemTitle
  (jsEndsWith title ".jpg" || jsEndsWith title ".jpeg" || jsEndsWith title ".png")
    && !(jsIncludes title "map")
    && !(jsIncludes title "distribution")
    && !(jsIncludes title "range")
    && !(jsIncludes title "diagram")

/-- Responses the Commons resolver can see: the category-members request, the
per-title imageinfo requests, and the direct-search request.  Payloads are
Option-wrapped to model a malformed JSON shape (missing query fields); the
imageinfo payload is doubly wrapped: outer none is a malformed shape, inner
none is a page whose imageinfo array is empty. -/
structure CommonsEnv where
  category : FetchOutcome (Option (List String))
  imageInfo : String → FetchOutcome (Option (Option String))
  search : FetchOutcome (Option (List String))

/-- Link to the Commons file page for a title, as built in script.js. -/
def commonsFileLink (imageTitle : String) : String :=
  "https://commons.wikimedia.org/wiki/File:" ++
    encodeURIComponent (replaceFirst imageTitle "File:" "")

/-- Model of the imageinfo loop in fetchBirdImagesFromCommons: for each kept
title fetch its imageinfo; a thrown fetch aborts the whole enclosing try block
(Except.error), a non-ok or malformed response merely skips that title. -/
def fetchImageInfos (info : String → FetchOutcome (Option (Option String))) :
    List String → Except Unit (List ImageCandidate)
  | [] => .ok []
  | t :: ts =>
    match info t with
    | .networkError => .error ()
    | .httpError => fetchImageInfos info ts
    | .success none => fetchImageInfos info ts
    | .success (some none) => fetchImageInfos info ts
    | .success (some (some url)) =>
      match fetchImageInfos info ts with
      | .error () => .error ()
      | .ok rest => .ok ({ url := url, link := commonsFileLink t } :: rest)

/-- Body of fetchBirdImagesFromCommons before its catch handler.  The direct
search (second approach) is nested inside the categoryResponse.ok branch,
exactly as in the source. -/
def commonsResultOrThrow (env : CommonsEnv) : Except Unit (List ImageCandidate) :=
  match env.category with
  | .networkError => .error ()
  | .httpError => .ok []
  | .success catData =>
    let step1 : Except Unit (List ImageCandidate) :=
      match catData with
      | some members =>
        if members.length > 0 then
          fetchImageInfos env.imageInfo ((members.filter commonsKeep).take 5)
        else .ok []
      | none => .ok []
    match step1 with
    | .error () => .error ()
    | .ok images1 =>
      if images1.length > 0 then .ok images1
      else
        match env.search with
        | .networkError => .error ()
        | .httpError => .ok images1
        | .success searchData =>
          match searchData with
          | some results =>
            if results.length > 0 then
              match fetchImageInfos env.imageInfo ((results.filter commonsKeep).take 5) with
              | .error () => .error ()
              | .ok images2 => .ok (images1 ++ images2)
            else .ok images1
          | none => .ok images1

/-- Model of fetchBirdImagesFromCommons in script.js; the catch handler turns
any thrown error into an empty result list. -/
def fetchBirdImagesFromCommons (scientificName : String) (env : CommonsEnv) :
    List ImageCandidate :=
  match commonsResultOrThrow env with
  | .error () => []
  | .ok images => images

/-- Parsed payload of a Wikipedia REST summary response. -/
structure SummaryData where
  thumbnail : Option String
  originalimage : Option String
  contentPage : String
deriving DecidableEq, Repr

/-- Responses the Wikipedia fallback can see: the summary request for the
common name, the search request, and the summary request for the top hit. -/
structure WikipediaEnv where
  summary : FetchOutcome SummaryData
  search : FetchOutcome (Option (List String))
  pageSummary : String → FetchOutcome SummaryData

/-- Search portion of fetchBirdImagesFromWikipedia (runs when the direct
summary produced nothing); images carries candidates pushed so far. -/
def wikipediaSearchStep (env : WikipediaEnv) (images : List ImageCandidate) :
    Except Unit (List ImageCandidate) :=
  match env.search with
  | .networkError => .error ()
  | .httpError => .ok images
  | .success sd =>
    match sd with
    | some (firstTitle :: _) =>
      match env.pageSummary firstTitle with
      | .networkError => .error ()
      | .httpError => .ok images
      | .success pd =>
        match pd.thumbnail with
        | some thumbUrl =>
          let images2 := images ++ [{ url := thumbUrl, link := pd.contentPage }]
          match pd.originalimage with
          | some orig => .ok (images2 ++ [{ url := orig, link := pd.contentPage }])
          | none => .ok images2
        | none => .ok images
    | _ => .ok images

/-- Body of fetchBirdImagesFromWikipedia before its catch handler. -/
def wikipediaResultOrThrow (env : WikipediaEnv) : Except Unit (List ImageCandidate) :=
  match env.summary with
  | .networkError => .error ()
  | .httpError => wikipediaSearchStep env []
  | .success d =>
    match d.thumbnail with
    | some thumbUrl =>
      let images := [({ url := thumbUrl, link := d.contentPage } : ImageCandidate)]
      match d.originalimage with
      | some orig => .ok (images ++ [{ url := orig, link := d.contentPage }])
      | none => .ok images
    | none => wikipediaSearchStep env []

/-- Model of fetchBirdImagesFromWikipedia in script.js. -/
def fetchBirdImagesFromWikipedia (commonName : String) (env : WikipediaEnv) :
    List ImageCandidate :=
  match wikipediaResultOrThrow env with
  | .error () => []
  | .ok images => images

/-- Model of fetchBirdImagesWithFallback in script.js: Commons by scientific
name first (an empty scientific name is falsy and skips Commons), then
Wikipedia by common name if that produced nothing. -/
def fetchBirdImagesWithFallback (commonName scientificName : String)
    (cenv : CommonsEnv) (wenv : WikipediaEnv) : List ImageCandidate :=
  let images := if scientificName = "" then [] else fetchBirdImagesFromCommons scientificName cenv
  if images.length = 0 then fetchBirdImagesFromWikipedia commonName wenv else images

/-- Image source assigned by createBirdCard in script.js: the placeholder is
assigned first and replaced by the first candidate only when one exists. -/
def createBirdCardImgSrc (commonName : String) (images : List ImageCandidate) : String :=
  if images.length > 0 then (images.headD { url := "", link := "" }).url
  else placeholderUrl commonName

/-- Source tag carried by resolver results in the multi-source script. -/
inductive ImageSource where
  | wikipedia
  | unsplash
  | pixabay
  | placeholder
deriving DecidableEq, Repr

/-- Attribution metadata carried by resolver results. -/
structure Attribution where
  name : String
  username : String
  link : String
deriving DecidableEq, Repr

/-- Result object of fetchBirdImage in the multi-source script. -/
structure ImageResult where
  url : String
  attribution : Option Attribution
  source : ImageSource
deriving DecidableEq, Repr

/-- Placeholder result returned by fetchBirdImage when every source fails. -/
def placeholderResult (birdName : String) : ImageResult :=
  { url := placeholderUrl birdName, attribution := none, source := .placeholder }

/-- Value returned by fetchUnsplashImage: a URL plus attribution fields. -/
structure UnsplashSel where
  url : String
  name : String
  username : String
  link : String
deriving DecidableEq, Repr

/-- Model of the default flow of fetchBirdImage in the multi-source script
(preferredSource null): Wikipedia, then Pixabay, then Unsplash, each wrapped
in its own try/catch so an error is caught and the next source still runs;
the placeholder is returned when everything failed or returned nothing.
Each argument is the outcome of one source call: error models a thrown
fetch, ok none models a source that returned null. -/
def fetchBirdImageDefault (birdName : String)
    (wiki : Except Unit (Option ImageResult))
    (pixabay : Except Unit (Option String))
    (unsplash : Except Unit (Option UnsplashSel)) : ImageResult :=
  match wiki with
  | .ok (some w) => w
  | _ =>
    match pixabay with
    | .ok (some pixUrl) => { url := pixUrl, attribution := none, source := .pixabay }
    | _ =>
      match unsplash with
      | .ok (some u) =>
        { url := u.url
          attribution := some { name := u.name, username := u.username, link := u.link }
          source := .unsplash }
      | _ => placeholderResult birdName

/-- Holds when a source outcome is a caught error or a null result. -/
def noUsable {α : Type} : Except Unit (Option α) → Prop
  | .ok (some _) => False
  | _ => True

/-- Holds when a fetch call failed (threw or was non-success). -/
def FetchOutcome.failed {α : Type} : FetchOutcome α → Prop
  | .success _ => False
  | _ => True

/-- Every Commons-side network call fails. -/
def CommonsEnv.allCallsFail (env : CommonsEnv) : Prop :=
  env.category.failed ∧ env.search.failed ∧ ∀ t, (env.imageInfo t).failed

/-- Every Wikipedia-side network call fails. -/
def WikipediaEnv.allCallsFail (env : WikipediaEnv) : Prop :=
  env.summary.failed ∧ env.search.failed ∧ ∀ t, (env.pageSummary t).failed

/-- Keyword list shared by both stock-photo scorers. -/
def birdKeywords : List String :=
  ["bird", "wildlife", "avian", "birding", "ornithology", "nature"]

/-- Fields of an Unsplash search result used by the scorer. -/
structure UPhoto where
  description : Option String
  altDescription : Option String
  tags : List String
  likes : Nat
deriving DecidableEq, Repr

/-- Fields of a Pixabay hit used by the scorer; tags is one comma-separated
string as delivered by the Pixabay API. -/
structure PixHit where
  tags : String
  likes : Nat
  imageWidth : Nat
deriving DecidableEq, Repr

/-- Scoring block of fetchUnsplashImage, translated clause by clause. -/
def unsplashScore (birdName scientificName : String) (photo : UPhoto) : ℚ :=
  let description := jsToLower (photo.description.getD "")
  let altDescription := jsToLower (photo.altDescription.getD "")
  let tags := photo.tags.map jsToLower
  let lowerBirdName := jsToLower birdName
  let lowerScientificName := jsToLower scientificName
  let score : ℚ := 0
  let score := score +
    (if jsIncludes description lowerBirdName || jsIncludes altDescription lowerBirdName then 10 else 0)
  let score := score +
    (if jsIncludes description lowerScientificName || jsIncludes altDescription lowerScientificName then 15 else 0)
  let score := birdKeywords.foldl
    (fun s keyword => s + (if tags.any (fun tag => jsIncludes tag keyword) then 2 else 0)) score
  let score := score +
    (if jsIncludes description "costa rica" || jsIncludes altDescription "costa rica" ||
        tags.any (fun tag => jsIncludes tag "costa rica") then 5 else 0)
  score + min ((photo.likes : ℚ) / 10) 5

/-- Scoring block of fetchPixabayImage, translated clause by clause. -/
def pixabayScore (birdName scientificName : String) (hit : PixHit) : ℚ :=
  let tags := jsToLower hit.tags
  let score : ℚ := 0
  let score := score + (if jsIncludes tags (jsToLower birdName) then 10 else 0)
  let score := score + (if jsIncludes tags (jsToLower scientificName) then 15 else 0)
  let score := birdKeywords.foldl
    (fun s keyword => s + (if jsIncludes tags keyword then 2 else 0)) score
  let score := score + (if jsIncludes tags "costa rica" then 5 else 0)
  let score := score + min ((hit.likes : ℚ) / 50) 3
  score + (if hit.imageWidth > 1600 then 2 else 0)

/-- Scoring formula exactly as the specification states it: base 0, +10 for a
common-name hit, +15 for a scientific-name hit, +2 per matched bird keyword,
+5 for the locale keyword, plus likes divided by 10 capped at 5. -/
def claimStockScore (nameHit sciHit : Bool) (keywordHits : Nat) (localeHit : Bool)
    (likes : Nat) : ℚ :=
  (if nameHit then 10 else 0) + (if sciHit then 15 else 0) + 2 * (keywordHits : ℚ)
    + (if localeHit then 5 else 0) + min ((likes : ℚ) / 10) 5

/-- The claimed formula applied to the Unsplash fields. -/
def claimUnsplashScore (birdName scientificName : String) (photo : UPhoto) : ℚ :=
  let description := jsToLower (photo.description.getD "")
  let altDescription := jsToLower (photo.altDescription.getD "")
  let tags := photo.tags.map jsToLower
  claimStockScore
    (jsIncludes description (jsToLower birdName) || jsIncludes altDescription (jsToLower birdName))
    (jsIncludes description (jsToLower scientificName) ||
      jsIncludes altDescription (jsToLower scientificName))
    ((birdKeywords.filter (fun k => tags.any (fun tag => jsIncludes tag k))).length)
    (jsIncludes description "costa rica" || jsIncludes altDescription "costa rica" ||
      tags.any (fun tag => jsIncludes tag "costa rica"))
    photo.likes

/-- The claimed formula applied to the Pixabay fields. -/
def claimPixabayScore (birdName scientificName : String) (hit : PixHit) : ℚ :=
  let tags := jsToLower hit.tags
  claimStockScore (jsIncludes tags (jsToLower birdName)) (jsIncludes tags (jsToLower scientificName))
    ((birdKeywords.filter (fun k => jsIncludes tags k)).length)
    (jsIncludes tags "costa rica") hit.likes

/-- Closed form of the Pixabay scorer with its actual popularity bonus:
likes divided by 50 capped at 3, plus 2 for width above 1600. -/
def amendedPixabayScore (birdName scientificName : String) (hit : PixHit) : ℚ :=
  let tags := jsToLower hit.tags
  (if jsIncludes tags (jsToLower birdName) then 10 else 0)
    + (if jsIncludes tags (jsToLower scientificName) then 15 else 0)
    + 2 * ((birdKeywords.filter (fun k => jsIncludes tags k)).length : ℚ)
    + (if jsIncludes tags "costa rica" then 5 else 0)
    + min ((hit.likes : ℚ) / 50) 3
    + (if hit.imageWidth > 1600 then 2 else 0)

/-- Stable insertion of a scored item into a descending list, modelling the
stable Array.prototype.sort with comparator b.score - a.score. -/
def insertDesc {α : Type} (x : α × ℚ) : List (α × ℚ) → List (α × ℚ)
  | [] => [x]
  | y :: ys => if y.2 ≤ x.2 then x :: y :: ys else y :: insertDesc x ys

/-- Stable descending sort by score. -/
def sortScored {α : Type} : List (α × ℚ) → List (α × ℚ)
  | [] => []
  | x :: xs => insertDesc x (sortScored xs)

/-- Filter step of the selection block: keep results whose score is at least
max(topScore - 2, 0), where topScore is the first score after sorting. -/
def topCandidates {α : Type} (d : α × ℚ) (scored : List (α × ℚ)) : List (α × ℚ) :=
  let sorted := sortScored scored
  let topScore := (sorted.headD d).2
  sorted.filter (fun x => decide (max (topScore - 2) 0 ≤ x.2))

/-- Random index of the selection block: Math.floor(random * min(len, 3)). -/
def pickIndex (r : ℚ) (len : Nat) : Nat := (⌊r * ((min len 3 : Nat) : ℚ)⌋).toNat

/-- Selection block shared verbatim by fetchUnsplashImage and
fetchPixabayImage: sort by score, keep near-top results, pick the random
index among at most the first three. -/
def selectTop {α : Type} (d : α × ℚ) (scored : List (α × ℚ)) (r : ℚ) : α × ℚ :=
  (topCandidates d scored).getD (pickIndex r (topCandidates d scored).length) d

/-- Scored Unsplash results, as built by data.results.map. -/
def unsplashScored (birdName scientificName : String) (results : List UPhoto) :
    List (UPhoto × ℚ) :=
  results.map (fun p => (p, unsplashScore birdName scientificName p))

/-- Scored Pixabay hits, as built by data.hits.map. -/
def pixabayScored (birdName scientificName : String) (hits : List PixHit) :
    List (PixHit × ℚ) :=
  hits.map (fun h => (h, pixabayScore birdName scientificName h))

/-- Default element used by the list accessors of the selection model. -/
def dummyUPhotoPair : UPhoto × ℚ := ({ description := none, altDescription := none, tags := [], likes := 0 }, 0)

/-- Default element used by the list accessors of the selection model. -/
def dummyPixPair : PixHit × ℚ := ({ tags := "", likes := 0, imageWidth := 0 }, 0)

/-- Selected scored result of the Unsplash path for a given random draw r. -/
def unsplashPick (birdName scientificName : String) (results : List UPhoto) (r : ℚ) :
    UPhoto × ℚ :=
  selectTop dummyUPhotoPair (unsplashScored birdName scientificName results) r

/-- Selected scored result of the Pixabay path for a given random draw r. -/
def pixabayPick (birdName scientificName : String) (hits : List PixHit) (r : ℚ) :
    PixHit × ℚ :=
  selectTop dummyPixPair (pixabayScored birdName scientificName hits) r

/-- Default candidate used by the list accessors of the cycling model. -/
def dummyCandidate : ImageCandidate := { url := "", link := "" }

/-- Per-card cycling state of script.js: dataset.currentImageIndex,
dataset.imageCount, the stored candidate array and the displayed img.src. -/
structure CardCycleState where
  currentImageIndex : Nat
  imageCount : Nat
  images : List ImageCandidate
  src : String
deriving DecidableEq, Repr

/-- Click handler of script.js: advance to (currentIndex + 1) % imageCount,
display that candidate, store the new index. -/
def clickImage (st : CardCycleState) : CardCycleState :=
  let nextIndex := (st.currentImageIndex + 1) % st.imageCount
  { st with src := (st.images.getD nextIndex dummyCandidate).url
            currentImageIndex := nextIndex }

/-- State installed by loadBirds when more than one candidate exists:
index 0, the candidate count, the array, and the first URL displayed. -/
def initCardState (images : List ImageCandidate) : CardCycleState :=
  { currentImageIndex := 0
    imageCount := images.length
    images := images
    src := (images.getD 0 dummyCandidate).url }

/-- Consistency of a card state with its stored candidate list. -/
def cycleGoodState (images : List ImageCandidate) (st : CardCycleState) : Prop :=
  st.images = images ∧ st.imageCount = images.length ∧
    st.currentImageIndex < images.length ∧
    st.src = (images.getD st.currentImageIndex dummyCandidate).url

/-- Displayed image element: its current source and whether an onerror
handler is still attached. -/
structure ImgElem where
  src : String
  onerrorActive : Bool
deriving DecidableEq, Repr

/-- onerror handler of createBirdCard in script.js: assign the placeholder,
leaving the handler attached. -/
def scriptOnError (commonName : String) (img : ImgElem) : ImgElem :=
  { img with src := placeholderUrl commonName }

/-- onerror handler of createBirdCard in the multi-source script: assign the
placeholder and null out the handler. -/
def part002OnError (commonName : String) (img : ImgElem) : ImgElem :=
  { src := placeholderUrl commonName, onerrorActive := false }

/-- One load-error event: when the current source fails to load and a handler
is attached, the handler runs and the invocation counter increases. -/
def fireLoadError (handler : ImgElem → ImgElem) (loads : String → Bool) :
    ImgElem × Nat → ImgElem × Nat
  | (img, n) =>
    if !loads img.src && img.onerrorActive then (handler img, n + 1) else (img, n)

/-- Children of the birds container: category headings and bird cards. -/
inductive GridElem where
  | category (title : String)
  | card (name : String) (sci : String)
deriving DecidableEq, Repr

/-- Card visibility test of setupFiltering in script.js: the lower-cased link
text against the lower-cased query. -/
def scriptCardMatch (filter name sci : String) : Bool :=
  jsIncludes (jsToLower name) filter

/-- Card visibility test of setupFiltering in the multi-source script: the
common name or the scientific name may match. -/
def part002CardMatch (filter name sci : String) : Bool :=
  jsIncludes (jsToLower name) filter || jsIncludes (jsToLower sci) filter

/-- The currentCategory tracker after a walk over some children, starting
from a given tracker value and element index. -/
def curAfter : Option Nat → Nat → List GridElem → Option Nat
  | cur, _, [] => cur
  | _, idx, GridElem.category _ :: rest => curAfter (some idx) (idx + 1) rest
  | cur, idx, GridElem.card _ _ :: rest => curAfter cur (idx + 1) rest

/-- Category indices flagged visible by the forEach walk of setupFiltering:
each visible card flags the current category, when one has been seen. -/
def catFlags (cardMatch : String → String → String → Bool) (filter : String) :
    Option Nat → Nat → List GridElem → List Nat
  | _, _, [] => []
  | _, idx, GridElem.category _ :: rest => catFlags cardMatch filter (some idx) (idx + 1) rest
  | cur, idx, GridElem.card name sci :: rest =>
    if cardMatch filter name sci then
      match cur with
      | some c => c :: catFlags cardMatch filter cur (idx + 1) rest
      | none => catFlags cardMatch filter cur (idx + 1) rest
    else catFlags cardMatch filter cur (idx + 1) rest

/-- Model of one input event of setupFiltering: the resulting visibility of
every child, in order.  Cards are visible when they match the lower-cased
query; categories are visible when the walk flagged them. -/
def runFilter (cardMatch : String → String → String → Bool) (query : String)
    (children : List GridElem) : List Bool :=
  let filter := jsToLower query
  let flags := catFlags cardMatch filter none 0 children
  children.enum.map fun ie =>
    match ie.2 with
    | GridElem.category _ => flags.contains ie.1
    | GridElem.card name sci => cardMatch filter name sci

/-- Concrete environment where every Commons call fails. -/
def commonsFailEnv : CommonsEnv :=
  { category := .networkError
    imageInfo := fun _ => .networkError
    search := .networkError }

/-- Concrete environment where every Wikipedia call fails. -/
def wikipediaFailEnv : WikipediaEnv :=
  { summary := .networkError
    search := .networkError
    pageSummary := fun _ => .networkError }

/-- Environment whose category request gets a non-success response while the
direct search would find a perfectly usable image. -/
def c3Env : CommonsEnv :=
  { category := .httpError
    imageInfo := fun _ => .success (some (some "https://upload.wikimedia.org/ara.jpg"))
    search := .success (some ["File:Ara macao flying.jpg"]) }

/-- The same environment with the category payload merely malformed, so the
category step itself yields zero results without failing. -/
def c3EnvB : CommonsEnv :=
  { c3Env with category := .success none }

/-- Pixabay hit with no tag matches, 500 likes and a small width. -/
def examplePixHit : PixHit := { tags := "", likes := 500, imageWidth := 800 }

/-- Unsplash photo used by the selection witness. -/
def examplePhoto : UPhoto :=
  { description := some "a quetzal bird", altDescription := none, tags := ["bird"], likes := 12 }

/-- Grid used by the filtering counterexample and witnesses. -/
def c2Grid : List GridElem :=
  [GridElem.category "Parrots", GridElem.card "Scarlet Macaw" "Ara macao"]

/-- Image element showing a broken source with its handler attached. -/
def brokenImg : ImgElem := { src := "https://example.org/broken.jpg", onerrorActive := true }

/-- Candidate pair used by cycling witnesses. -/
def twoCandidates : List ImageCandidate :=
  [{ url := "https://a.example/1.jpg", link := "https://a.example/p1" },
   { url := "https://a.example/2.jpg", link := "https://a.example/p2" }]

/-! ## Helper lemmas -/

/-- Caught Wikipedia errors behave like a null Wikipedia result. -/
theorem fetchBirdImageDefault_wiki_caught (birdName : String)
    (p : Except Unit (Option String)) (u : Except Unit (Option UnsplashSel))
    (w : Except Unit (Option ImageResult)) (hw : noUsable w) :
    fetchBirdImageDefault birdName w p u
      = fetchBirdImageDefault birdName (Except.ok none) p u := by
  cases w with
  | error e => rfl
  | ok o =>
    cases o with
    | none => rfl
    | some w => exact hw.elim

/-- Caught Pixabay errors behave like a null Pixabay result. -/
theorem fetchBirdImageDefault_pix_caught (birdName : String)
    (w : Except Unit (Option ImageResult)) (u : Except Unit (Option UnsplashSel))
    (p : Except Unit (Option String)) (hp : noUsable p) :
    fetchBirdImageDefault birdName w p u
      = fetchBirdImageDefault birdName w (Except.ok none) u := by
  cases w with
  | error e =>
    cases p with
    | error e2 => rfl
    | ok o => cases o with
      | none => rfl
      | some v => exact hp.elim
  | ok o =>
    cases o with
    | some w => rfl
    | none =>
      cases p with
      | error e2 => rfl
      | ok o2 => cases o2 with
        | none => rfl
        | some v => exact hp.elim

/-- Caught Unsplash errors behave like a null Unsplash result. -/
theorem fetchBirdImageDefault_uns_caught (birdName : String)
    (w : Except Unit (Option ImageResult)) (p : Except Unit (Option String))
    (u : Except Unit (Option UnsplashSel)) (hu : noUsable u) :
    fetchBirdImageDefault birdName w p u
      = fetchBirdImageDefault birdName w p (Except.ok none) := by
  have step : ∀ u2 : Except Unit (Option UnsplashSel), noUsable u2 →
      fetchBirdImageDefault birdName (Except.ok none) (Except.ok none) u2
        = fetchBirdImageDefault birdName (Except.ok none) (Except.ok none) (Except.ok none) := by
    intro u2 hu2
    cases u2 with
    | error e => rfl
    | ok o => cases o with
      | none => rfl
      | some v => exact hu2.elim
  cases w with
  | error e =>
    cases p with
    | error e2 => exact step u hu
    | ok o => cases o with
      | none => exact step u hu
      | some v => rfl
  | ok o =>
    cases o with
    | some w => rfl
    | none =>
      cases p with
      | error e2 => exact step u hu
      | ok o2 => cases o2 with
        | none => exact step u hu
        | some v => rfl

/-- When every Commons call fails, the Commons resolver yields no candidates. -/
theorem fetchBirdImagesFromCommons_allFail (scientificName : String) (env : CommonsEnv)
    (h : env.allCallsFail) : fetchBirdImagesFromCommons scientificName env = [] := by
  obtain ⟨hc, hs, _⟩ := h
  cases hcat : env.category with
  | networkError => simp [fetchBirdImagesFromCommons, commonsResultOrThrow, hcat]
  | httpError =>
    cases hsearch : env.search with
    | networkError => simp [fetchBirdImagesFromCommons, commonsResultOrThrow, hcat, hsearch]
    | httpError => simp [fetchBirdImagesFromCommons, commonsResultOrThrow, hcat, hsearch]
    | success d => rw [hsearch] at hs; exact hs.elim
  | success d => rw [hcat] at hc; exact hc.elim

/-- When every Wikipedia call fails, the Wikipedia resolver yields no candidates. -/
theorem fetchBirdImagesFromWikipedia_allFail (commonName : String) (env : WikipediaEnv)
    (h : env.allCallsFail) : fetchBirdImagesFromWikipedia commonName env = [] := by
  obtain ⟨hsum, hs, _⟩ := h
  cases hsummary : env.summary with
  | networkError => simp [fetchBirdImagesFromWikipedia, wikipediaResultOrThrow, hsummary]
  | httpError =>
    cases hsearch : env.search with
    | networkError =>
      simp [fetchBirdImagesFromWikipedia, wikipediaResultOrThrow, wikipediaSearchStep,
        hsummary, hsearch]
    | httpError =>
      simp [fetchBirdImagesFromWikipedia, wikipediaResultOrThrow, wikipediaSearchStep,
        hsummary, hsearch]
    | success d => rw [hsearch] at hs; exact hs.elim
  | success d => rw [hsummary] at hsum; exact hsum.elim

/-! ## Claim C1 -/

/-- Claim C1, as stated, is false for the resolver of script.js: with every
network call failing, fetchBirdImagesWithFallback returns zero candidates,
not exactly one placeholder candidate. -/
theorem claim_C1_counterexample :
    fetchBirdImagesWithFallback "Resplendent Quetzal" "Pharomachrus mocinno"
      commonsFailEnv wikipediaFailEnv = [] := by
  rfl

/-- Claim C1 (amended): when every source yields no usable result, the
multi-source fetchBirdImage returns exactly the placeholder candidate built
from the common name and raises no exception, while the script.js
fetchBirdImagesWithFallback returns zero candidates without an exception and
the card built from an empty candidate list keeps the placeholder source
built from the common name. -/
theorem claim_C1_amended :
    (∀ (birdName : String) (wiki : Except Unit (Option ImageResult))
        (pixabay : Except Unit (Option String)) (unsplash : Except Unit (Option UnsplashSel)),
      noUsable wiki → noUsable pixabay → noUsable unsplash →
      fetchBirdImageDefault birdName wiki pixabay unsplash = placeholderResult birdName)
    ∧ (∀ (commonName scientificName : String) (cenv : CommonsEnv) (wenv : WikipediaEnv),
      cenv.allCallsFail → wenv.allCallsFail →
      fetchBirdImagesWithFallback commonName scientificName cenv wenv = [])
    ∧ (∀ commonName : String,
      createBirdCardImgSrc commonName [] = placeholderUrl commonName) := by
  refine ⟨?_, ?_, ?_⟩
  · intro birdName wiki pixabay unsplash hw hp hu
    rw [fetchBirdImageDefault_wiki_caught birdName pixabay unsplash wiki hw,
      fetchBirdImageDefault_pix_caught birdName (Except.ok none) unsplash pixabay hp,
      fetchBirdImageDefault_uns_caught birdName (Except.ok none) (Except.ok none) unsplash hu]
    rfl
  · intro commonName scientificName cenv wenv hc hwk
    by_cases hs : scientificName = "" <;>
      simp [fetchBirdImagesWithFallback, hs,
        fetchBirdImagesFromCommons_allFail scientificName cenv hc,
        fetchBirdImagesFromWikipedia_allFail commonName wenv hwk]
  · intro commonName
    rfl

/-- Witness for claim C1 at a concrete bird and concrete failing calls. -/
theorem claim_C1_witness :
    fetchBirdImageDefault "Resplendent Quetzal" (Except.error ()) (Except.error ())
        (Except.error ()) = placeholderResult "Resplendent Quetzal"
    ∧ fetchBirdImagesWithFallback "Resplendent Quetzal" "Pharomachrus mocinno"
        commonsFailEnv wikipediaFailEnv = []
    ∧ createBirdCardImgSrc "Resplendent Quetzal" [] = placeholderUrl "Resplendent Quetzal" :=
  ⟨claim_C1_amended.1 _ _ _ _ trivial trivial trivial,
   claim_C1_amended.2.1 _ _ _ _ ⟨trivial, trivial, fun _ => trivial⟩
     ⟨trivial, trivial, fun _ => trivial⟩,
   claim_C1_amended.2.2 _⟩

/-! ## Claim C3 -/

/-- Claim C3, as stated, is false: a non-success response at step 1 (the
category request) is not treated as zero results for that step only, it
skips step 2 (the direct search) entirely.  With the category request
non-ok the function returns no candidates, while the same environment with
a merely empty category step finds the search candidate. -/
theorem claim_C3_counterexample :
    fetchBirdImagesFromCommons "Ara macao" c3Env = []
    ∧ fetchBirdImagesFromCommons "Ara macao" c3EnvB =
        [{ url := "https://upload.wikimedia.org/ara.jpg",
           link := commonsFileLink "File:Ara macao flying.jpg" }] :=
  ⟨rfl, rfl⟩

/-- Claim C3 (amended): in the multi-source resolver a caught error in any
source behaves exactly like a null result of that source, so the next source
still runs; in script.js a Commons resolver that produced nothing (for any
reason, including errors) still lets the Wikipedia source run; but a thrown
or non-success category request makes the whole Commons function return no
candidates, skipping its in-function search step. -/
theorem claim_C3_amended :
    (∀ (birdName : String) (p : Except Unit (Option String))
        (u : Except Unit (Option UnsplashSel)),
      fetchBirdImageDefault birdName (Except.error ()) p u
        = fetchBirdImageDefault birdName (Except.ok none) p u)
    ∧ (∀ (birdName : String) (w : Except Unit (Option ImageResult))
        (u : Except Unit (Option UnsplashSel)),
      fetchBirdImageDefault birdName w (Except.error ()) u
        = fetchBirdImageDefault birdName w (Except.ok none) u)
    ∧ (∀ (birdName : String) (w : Except Unit (Option ImageResult))
        (p : Except Unit (Option String)),
      fetchBirdImageDefault birdName w p (Except.error ())
        = fetchBirdImageDefault birdName w p (Except.ok none))
    ∧ (∀ (commonName scientificName : String) (cenv : CommonsEnv) (wenv : WikipediaEnv),
      scientificName ≠ "" → fetchBirdImagesFromCommons scientificName cenv = [] →
      fetchBirdImagesWithFallback commonName scientificName cenv wenv
        = fetchBirdImagesFromWikipedia commonName wenv)
    ∧ (∀ (scientificName : String) (env : CommonsEnv),
      env.category = FetchOutcome.networkError ∨ env.category = FetchOutcome.httpError →
      fetchBirdImagesFromCommons scientificName env = []) := by
  refine ⟨?_, ?_, ?_, ?_, ?_⟩
  · intro birdName p u
    exact fetchBirdImageDefault_wiki_caught birdName p u (Except.error ()) trivial
  · intro birdName w u
    exact fetchBirdImageDefault_pix_caught birdName w u (Except.error ()) trivial
  · intro birdName w p
    exact fetchBirdImageDefault_uns_caught birdName w p (Except.error ()) trivial
  · intro commonName scientificName cenv wenv hs hzero
    simp [fetchBirdImagesWithFallback, hs, hzero]
  · intro scientificName env hcat
    rcases hcat with hcat | hcat
    · simp [fetchBirdImagesFromCommons, commonsResultOrThrow, hcat]
    · cases hsearch : env.search with
      | networkError => simp [fetchBirdImagesFromCommons, commonsResultOrThrow, hcat, hsearch]
      | httpError => simp [fetchBirdImagesFromCommons, commonsResultOrThrow, hcat, hsearch]
      | success d => simp [fetchBirdImagesFromCommons, commonsResultOrThrow, hcat, hsearch]

/-- Witness for claim C3: with the category request non-ok but the search
usable, the chain still moves on to the Wikipedia source; with the category
request thrown, the Commons function likewise yields no candidates. -/
theorem claim_C3_witness :
    fetchBirdImagesWithFallback "Scarlet Macaw" "Ara macao" c3Env wikipediaFailEnv
        = fetchBirdImagesFromWikipedia "Scarlet Macaw" wikipediaFailEnv
    ∧ fetchBirdImagesFromCommons "Ara macao" c3Env = []
    ∧ fetchBirdImagesFromCommons "Ara macao" commonsFailEnv = [] :=
  ⟨claim_C3_amended.2.2.2.1 "Scarlet Macaw" "Ara macao" c3Env wikipediaFailEnv (by decide)
      (claim_C3_amended.2.2.2.2 "Ara macao" c3Env (Or.inr rfl)),
   claim_C3_amended.2.2.2.2 "Ara macao" c3Env (Or.inr rfl),
   claim_C3_amended.2.2.2.2 "Ara macao" commonsFailEnv (Or.inl rfl)⟩

/-! ## Claim C4 -/

/-- Claim C4, as stated, is false: the Commons filters of script.js do not
exclude the keywords icon, logo or wiki, so a title containing icon is kept
when its extension matches. -/
theorem claim_C4_counterexample :
    commonsKeep "Ara macao icon.jpg" = true
    ∧ jsIncludes (jsToLower "Ara macao icon.jpg") "icon" = true :=
  ⟨rfl, rfl⟩

/-- Claim C4 (amended): in resolution steps 1 and 2 a candidate filename is
kept if and only if its lower-cased title ends in .jpg, .jpeg or .png and
contains none of the keywords map, distribution, range and diagram. -/
theorem claim_C4_amended (itemTitle : String) :
    commonsKeep itemTitle = true ↔
      ((jsEndsWith (jsToLower itemTitle) ".jpg" = true
          ∨ jsEndsWith (jsToLower itemTitle) ".jpeg" = true
          ∨ jsEndsWith (jsToLower itemTitle) ".png" = true)
        ∧ ∀ kw ∈ ["map", "distribution", "range", "diagram"],
            jsIncludes (jsToLower itemTitle) kw = false) := by
  simp only [commonsKeep, Bool.and_eq_true, Bool.or_eq_true, Bool.not_eq_true',
    List.mem_cons, List.not_mem_nil, or_false, forall_eq_or_imp, forall_eq]
  tauto

/-- Witness for claim C4 at a concrete kept title. -/
theorem claim_C4_witness : commonsKeep "Ara macao.jpg" = true :=
  (claim_C4_amended "Ara macao.jpg").mpr ⟨Or.inl rfl, by decide⟩

/-! ## Claim C7 -/

/-- Keyword bonus fold: adding 2 per matched keyword equals twice the number
of matched keywords. -/
theorem foldl_keyword_bonus (p : String → Bool) (ks : List String) (a : ℚ) :
    ks.foldl (fun s k => s + (if p k then 2 else 0)) a
      = a + 2 * ((ks.filter p).length : ℚ) := by
  induction ks generalizing a with
  | nil => simp
  | cons k ks ih =>
    simp only [List.foldl_cons, List.filter_cons]
    rw [ih]
    by_cases h : p k = true <;> simp [h] <;> push_cast <;> ring

/-- Claim C7, as stated, is false for the Pixabay scorer: a hit with 500
likes, no matching tags and a small width scores 3 (likes / 50 capped at 3),
while the claimed formula (likes / 10 capped at 5) gives 5. -/
theorem claim_C7_counterexample :
    pixabayScore "Resplendent Quetzal" "Pharomachrus mocinno" examplePixHit = 3
    ∧ claimPixabayScore "Resplendent Quetzal" "Pharomachrus mocinno" examplePixHit = 5 := by
  constructor
  · simp only [pixabayScore, examplePixHit]
    rw [foldl_keyword_bonus]
    norm_num [show jsIncludes (jsToLower "") (jsToLower "Resplendent Quetzal") = false from rfl,
      show jsIncludes (jsToLower "") (jsToLower "Pharomachrus mocinno") = false from rfl,
      show jsIncludes (jsToLower "") "costa rica" = false from rfl,
      show birdKeywords.filter (fun k => jsIncludes (jsToLower "") k) = [] from rfl,
      min_def]
  · simp only [claimPixabayScore, claimStockScore, examplePixHit]
    norm_num [show jsIncludes (jsToLower "") (jsToLower "Resplendent Quetzal") = false from rfl,
      show jsIncludes (jsToLower "") (jsToLower "Pharomachrus mocinno") = false from rfl,
      show jsIncludes (jsToLower "") "costa rica" = false from rfl,
      show birdKeywords.filter (fun k => jsIncludes (jsToLower "") k) = [] from rfl,
      min_def]

/-- Claim C7 (amended): the Unsplash scorer computes exactly the claimed
formula (with the name tests on description and alt text, the keyword and
locale tests on tags, and likes / 10 capped at 5); the Pixabay scorer runs
all textual tests on its tag string and adds likes / 50 capped at 3 plus 2
for a width above 1600 instead of the claimed popularity bonus. -/
theorem claim_C7_amended (birdName scientificName : String) (photo : UPhoto) (hit : PixHit) :
    unsplashScore birdName scientificName photo
        = claimUnsplashScore birdName scientificName photo
    ∧ pixabayScore birdName scientificName hit
        = amendedPixabayScore birdName scientificName hit := by
  constructor
  · simp only [unsplashScore, claimUnsplashScore, claimStockScore]
    rw [foldl_keyword_bonus]
    ring
  · simp only [pixabayScore, amendedPixabayScore]
    rw [foldl_keyword_bonus]
    ring

/-! ## Claim C8 -/

/-- Claim C8: any candidate whose lower-cased title contains map,
distribution, range or diagram is rejected by the Commons filename filter,
whatever its extension. -/
theorem claim_C8 (itemTitle kw : String)
    (hkw : kw ∈ ["map", "distribution", "range", "diagram"])
    (hin : jsIncludes (jsToLower itemTitle) kw = true) :
    commonsKeep itemTitle = false := by
  fin_cases hkw <;> simp [commonsKeep, hin]

/-- Witness for claim C8 at a concrete excluded title. -/
theorem claim_C8_witness :
    "map" ∈ ["map", "distribution", "range", "diagram"]
    ∧ jsIncludes (jsToLower "Ara macao range map.jpg") "map" = true
    ∧ commonsKeep "Ara macao range map.jpg" = false :=
  ⟨by decide, rfl, claim_C8 "Ara macao range map.jpg" "map" (by decide) rfl⟩

/-! ## Claim C9 -/

/-- Claim C9, as stated, is false for script.js: its onerror handler never
detaches itself, so when the placeholder itself fails to load the handler
fires again — after two failing loads it has run twice and is still
attached. -/
theorem claim_C9_counterexample :
    ((fireLoadError (scriptOnError "Quetzal") (fun _ => false))^[2] (brokenImg, 0)).2 = 2
    ∧ ((fireLoadError (scriptOnError "Quetzal") (fun _ => false))^[2]
        (brokenImg, 0)).1.onerrorActive = true :=
  ⟨rfl, rfl⟩

/-- Claim C9 (amended): the multi-source script nulls the handler inside it,
so over any number of load-error events the handler runs at most once; the
script.js handler, in contrast, stays attached after running. -/
theorem claim_C9_amended :
    (∀ (commonName : String) (loads : String → Bool) (img : ImgElem) (n : Nat),
      ((fireLoadError (part002OnError commonName) loads)^[n] (img, 0)).2 ≤ 1)
    ∧ (∀ (commonName : String) (img : ImgElem),
      (part002OnError commonName img).onerrorActive = false)
    ∧ (∀ (commonName : String) (img : ImgElem),
      (scriptOnError commonName img).onerrorActive = img.onerrorActive) := by
  refine ⟨?_, fun _ _ => rfl, fun _ _ => rfl⟩
  intro commonName loads img n
  have key : ∀ (m : Nat) (st : ImgElem × Nat),
      st.2 ≤ 1 → (st.1.onerrorActive = true → st.2 = 0) →
      ((fireLoadError (part002OnError commonName) loads)^[m] st).2 ≤ 1 := by
    intro m
    induction m with
    | zero => intro st h1 _; simpa using h1
    | succ k ih =>
      intro st h1 h2
      rw [Function.iterate_succ_apply]
      obtain ⟨st1, n1⟩ := st
      simp only [fireLoadError]
      split
      · next hcond =>
        have hact : st1.onerrorActive = true := (Bool.and_eq_true _ _ |>.mp hcond).2
        have hn1 : n1 = 0 := h2 hact
        subst hn1
        exact ih (part002OnError commonName st1, 1) (by norm_num)
          (by intro h; simp [part002OnError] at h)
      · exact ih (st1, n1) h1 h2
  exact key n (img, 0) (by norm_num) (fun _ => rfl)

/-! ## Claims C5 and C10: image cycling -/

/-- One click preserves card-state consistency and advances the stored index
by exactly one modulo the candidate count. -/
theorem clickImage_goodState (images : List ImageCandidate) (st : CardCycleState)
    (h : cycleGoodState images st) (hlen : 0 < images.length) :
    cycleGoodState images (clickImage st)
    ∧ (clickImage st).currentImageIndex = (st.currentImageIndex + 1) % images.length := by
  obtain ⟨h1, h2, _, _⟩ := h
  subst h1
  refine ⟨⟨rfl, h2, ?_, ?_⟩, ?_⟩
  · simp only [clickImage, h2]
    exact Nat.mod_lt _ hlen
  · simp only [clickImage, h2]
  · simp only [clickImage, h2]

/-- Iterated clicks keep the state consistent and rotate the index. -/
theorem clickImage_iterate (images : List ImageCandidate) (hlen : 0 < images.length)
    (st : CardCycleState) (h : cycleGoodState images st) (n : Nat) :
    cycleGoodState images (clickImage^[n] st)
    ∧ (clickImage^[n] st).currentImageIndex
        = (st.currentImageIndex + n) % images.length := by
  induction n with
  | zero =>
    exact ⟨h, by simpa using (Nat.mod_eq_of_lt h.2.2.1).symm⟩
  | succ k ih =>
    obtain ⟨hg, hidx⟩ := ih
    obtain ⟨hstep, hinc⟩ := clickImage_goodState images _ hg hlen
    rw [Function.iterate_succ_apply']
    refine ⟨hstep, ?_⟩
    rw [hinc, hidx, Nat.mod_add_mod, Nat.add_assoc]

/-- Claim C5: on a card with N > 1 candidates each click advances the index
by one modulo N, and N clicks return both the index and the displayed URL to
their values before the sequence. -/
theorem claim_C5 (images : List ImageCandidate) (hN : 1 < images.length)
    (st : CardCycleState) (h : cycleGoodState images st) :
    (clickImage st).currentImageIndex = (st.currentImageIndex + 1) % images.length
    ∧ (clickImage^[images.length] st).currentImageIndex = st.currentImageIndex
    ∧ (clickImage^[images.length] st).src = st.src := by
  have hlen : 0 < images.length := lt_trans Nat.zero_lt_one hN
  obtain ⟨hg, hidx⟩ := clickImage_iterate images hlen st h images.length
  have hback : (clickImage^[images.length] st).currentImageIndex = st.currentImageIndex := by
    rw [hidx, Nat.add_mod_right]
    exact Nat.mod_eq_of_lt h.2.2.1
  refine ⟨(clickImage_goodState images st h hlen).2, hback, ?_⟩
  rw [hg.2.2.2, hback]
  exact h.2.2.2.symm

/-- Witness for claim C5 on a concrete two-candidate card. -/
theorem claim_C5_witness :
    (clickImage (initCardState twoCandidates)).currentImageIndex = (0 + 1) % twoCandidates.length
    ∧ (clickImage^[twoCandidates.length] (initCardState twoCandidates)).currentImageIndex = 0
    ∧ (clickImage^[twoCandidates.length] (initCardState twoCandidates)).src
        = (initCardState twoCandidates).src :=
  claim_C5 twoCandidates (by decide) (initCardState twoCandidates)
    ⟨rfl, rfl, by decide, rfl⟩

/-- Claim C10: for a card initialized with N > 1 candidates, after any number
of clicks the stored index stays inside [0, N), the displayed URL is the URL
of the candidate at the stored index, and neither the candidate list nor the
stored count changes. -/
theorem claim_C10 (images : List ImageCandidate) (hN : 1 < images.length) (n : Nat) :
    (clickImage^[n] (initCardState images)).currentImageIndex < images.length
    ∧ (clickImage^[n] (initCardState images)).src
        = (images.getD ((clickImage^[n] (initCardState images)).currentImageIndex)
            dummyCandidate).url
    ∧ (clickImage^[n] (initCardState images)).images = images
    ∧ (clickImage^[n] (initCardState images)).imageCount = images.length := by
  have hlen : 0 < images.length := lt_trans Nat.zero_lt_one hN
  have hinit : cycleGoodState images (initCardState images) := ⟨rfl, rfl, hlen, rfl⟩
  obtain ⟨⟨h1, h2, h3, h4⟩, _⟩ := clickImage_iterate images hlen (initCardState images) hinit n
  exact ⟨h3, h4, h1, h2⟩

/-- Witness for claim C10 at three clicks on a concrete two-candidate card. -/
theorem claim_C10_witness :
    (clickImage^[3] (initCardState twoCandidates)).currentImageIndex < twoCandidates.length
    ∧ (clickImage^[3] (initCardState twoCandidates)).src
        = (twoCandidates.getD ((clickImage^[3] (initCardState twoCandidates)).currentImageIndex)
            dummyCandidate).url
    ∧ (clickImage^[3] (initCardState twoCandidates)).images = twoCandidates
    ∧ (clickImage^[3] (initCardState twoCandidates)).imageCount = twoCandidates.length :=
  claim_C10 twoCandidates (by decide) 3

/-! ## Claim C2: live filtering -/

/-- Walking past a final category heading lands the tracker on its index. -/
theorem curAfter_append_category (l : List GridElem) (t : String) :
    ∀ (cur : Option Nat) (idx : Nat),
    curAfter cur idx (l ++ [GridElem.category t]) = some (idx + l.length) := by
  induction l with
  | nil =>
    intro cur idx
    simp [curAfter]
  | cons x xs ih =>
    intro cur idx
    cases x with
    | category u =>
      simp only [List.cons_append, curAfter, List.append_eq, ih, List.length_cons]
      congr 1
      omega
    | card nm sc =>
      simp only [List.cons_append, curAfter, List.append_eq, ih, List.length_cons]
      congr 1
      omega

/-- Walking past a final card leaves the tracker unchanged. -/
theorem curAfter_append_card (l : List GridElem) (nm sc : String) :
    ∀ (cur : Option Nat) (idx : Nat),
    curAfter cur idx (l ++ [GridElem.card nm sc]) = curAfter cur idx l := by
  induction l with
  | nil =>
    intro cur idx
    simp [curAfter]
  | cons x xs ih =>
    intro cur idx
    cases x with
    | category u => simp only [List.cons_append, curAfter, List.append_eq, ih]
    | card nm2 sc2 => simp only [List.cons_append, curAfter, List.append_eq, ih]

/-- A final category heading emits no visibility flag. -/
theorem catFlags_append_category (m : String → String → String → Bool) (f : String)
    (l : List GridElem) (t : String) :
    ∀ (cur : Option Nat) (idx : Nat),
    catFlags m f cur idx (l ++ [GridElem.category t]) = catFlags m f cur idx l := by
  induction l with
  | nil =>
    intro cur idx
    simp [catFlags]
  | cons x xs ih =>
    intro cur idx
    cases x with
    | category u => simp only [List.cons_append, catFlags, List.append_eq, ih]
    | card nm2 sc2 =>
      cases cur with
      | none => simp only [List.cons_append, catFlags, List.append_eq, ih]
      | some c => simp only [List.cons_append, catFlags, List.append_eq, ih]

/-- A final card emits a flag for the tracker value reached before it, when
the card is visible and a category was seen. -/
theorem catFlags_append_card (m : String → String → String → Bool) (f : String)
    (l : List GridElem) (nm sc : String) :
    ∀ (cur : Option Nat) (idx : Nat),
    catFlags m f cur idx (l ++ [GridElem.card nm sc])
      = catFlags m f cur idx l ++
          (if m f nm sc then
            (match curAfter cur idx l with
             | some c => [c]
             | none => [])
           else []) := by
  induction l with
  | nil =>
    intro cur idx
    cases cur with
    | none => by_cases h : m f nm sc = true <;> simp [catFlags, curAfter, h]
    | some c => by_cases h : m f nm sc = true <;> simp [catFlags, curAfter, h]
  | cons x xs ih =>
    intro cur idx
    cases x with
    | category u =>
      simp only [List.cons_append, catFlags, curAfter, List.append_eq, ih]
    | card nm2 sc2 =>
      by_cases h : m f nm2 sc2 = true
      · cases cur with
        | none => simp only [List.cons_append, catFlags, curAfter, List.append_eq, ih, if_pos h]
        | some c =>
          simp only [List.cons_append, catFlags, curAfter, List.append_eq, ih, if_pos h]
      · cases cur with
        | none => simp only [List.cons_append, catFlags, curAfter, List.append_eq, ih, if_neg h]
        | some c =>
          simp only [List.cons_append, catFlags, curAfter, List.append_eq, ih, if_neg h]

/-- Membership in the flag list: a category index is flagged exactly when
some visible card is reached while that category is the tracker value. -/
theorem mem_catFlags_iff (m : String → String → String → Bool) (f : String)
    (children : List GridElem) (c : Nat) :
    c ∈ catFlags m f none 0 children ↔
      ∃ j nm sc, children[j]? = some (GridElem.card nm sc) ∧ m f nm sc = true ∧
        curAfter none 0 (children.take j) = some c := by
  induction children using List.reverseRecOn with
  | nil => simp [catFlags]
  | append_singleton l e ih =>
    cases e with
    | category t =>
      rw [catFlags_append_category, ih]
      constructor
      · rintro ⟨j, nm, sc, hj, hm, hcur⟩
        have hjlt : j < l.length := (List.getElem?_eq_some.mp hj).1
        refine ⟨j, nm, sc, ?_, hm, ?_⟩
        · rw [List.getElem?_append]
          rw [if_pos hjlt]
          exact hj
        · rw [List.take_append_of_le_length hjlt.le]
          exact hcur
      · rintro ⟨j, nm, sc, hj, hm, hcur⟩
        rcases Nat.lt_trichotomy j l.length with hlt | heq | hgt
        · refine ⟨j, nm, sc, ?_, hm, ?_⟩
          · rw [List.getElem?_append, if_pos hlt] at hj
            exact hj
          · rw [List.take_append_of_le_length hlt.le] at hcur
            exact hcur
        · subst heq
          rw [List.getElem?_append, if_neg (lt_irrefl _), Nat.sub_self] at hj
          simp at hj
        · rw [List.getElem?_append, if_neg (by omega)] at hj
          rw [List.getElem?_eq_none (by simp; omega)] at hj
          simp at hj
    | card nm0 sc0 =>
      rw [catFlags_append_card, List.mem_append, ih]
      constructor
      · rintro (⟨j, nm, sc, hj, hm, hcur⟩ | hextra)
        · have hjlt : j < l.length := (List.getElem?_eq_some.mp hj).1
          refine ⟨j, nm, sc, ?_, hm, ?_⟩
          · rw [List.getElem?_append, if_pos hjlt]
            exact hj
          · rw [List.take_append_of_le_length hjlt.le]
            exact hcur
        · by_cases hm : m f nm0 sc0 = true
          · rw [if_pos hm] at hextra
            cases hca : curAfter none 0 l with
            | none =>
              rw [hca] at hextra
              simp at hextra
            | some c0 =>
              rw [hca] at hextra
              simp only [List.mem_singleton] at hextra
              subst hextra
              refine ⟨l.length, nm0, sc0, ?_, hm, ?_⟩
              · rw [List.getElem?_append, if_neg (lt_irrefl _), Nat.sub_self]
                rfl
              · rw [List.take_append_of_le_length le_rfl, List.take_length]
                exact hca
          · rw [if_neg hm] at hextra
            simp at hextra
      · rintro ⟨j, nm, sc, hj, hm, hcur⟩
        rcases Nat.lt_trichotomy j l.length with hlt | heq | hgt
        · left
          rw [List.getElem?_append, if_pos hlt] at hj
          rw [List.take_append_of_le_length hlt.le] at hcur
          exact ⟨j, nm, sc, hj, hm, hcur⟩
        · right
          subst heq
          rw [List.getElem?_append, if_neg (lt_irrefl _), Nat.sub_self] at hj
          simp only [List.getElem?_cons_zero, Option.some_inj, GridElem.card.injEq] at hj
          obtain ⟨rfl, rfl⟩ := hj
          rw [List.take_append_of_le_length le_rfl, List.take_length] at hcur
          rw [if_pos hm, hcur]
          simp
        · rw [List.getElem?_append, if_neg (by omega)] at hj
          rw [List.getElem?_eq_none (by simp; omega)] at hj
          simp at hj

/-- Characterization of the tracker after a full walk: it holds the largest
category index, i.e. the category with no later category. -/
theorem curAfter_eq_some_iff (children : List GridElem) (c : Nat) :
    curAfter none 0 children = some c ↔
      (∃ t, children[c]? = some (GridElem.category t)) ∧
        ∀ k u, c < k → children[k]? ≠ some (GridElem.category u) := by
  induction children using List.reverseRecOn with
  | nil => simp [curAfter]
  | append_singleton l e ih =>
    cases e with
    | category t =>
      rw [curAfter_append_category]
      constructor
      · intro h
        have hc : c = l.length := by
          have := Option.some_inj.mp h
          omega
        subst hc
        refine ⟨⟨t, ?_⟩, ?_⟩
        · rw [List.getElem?_append, if_neg (lt_irrefl _), Nat.sub_self]
          rfl
        · intro k u hk
          rw [List.getElem?_append, if_neg (by omega)]
          rw [List.getElem?_eq_none (by simp; omega)]
          simp
      · rintro ⟨⟨u, hu⟩, hnone⟩
        rcases Nat.lt_trichotomy c l.length with hlt | heq | hgt
        · exact absurd
            (show (l ++ [GridElem.category t])[l.length]? = some (GridElem.category t) by
              rw [List.getElem?_append, if_neg (lt_irrefl _), Nat.sub_self]; rfl)
            (hnone l.length t hlt)
        · rw [heq]
          simp
        · rw [List.getElem?_append, if_neg (by omega)] at hu
          rw [List.getElem?_eq_none (by simp; omega)] at hu
          simp at hu
    | card nm sc =>
      rw [curAfter_append_card, ih]
      constructor
      · rintro ⟨⟨u, hu⟩, hnone⟩
        have hclt : c < l.length := (List.getElem?_eq_some.mp hu).1
        refine ⟨⟨u, ?_⟩, ?_⟩
        · rw [List.getElem?_append, if_pos hclt]
          exact hu
        · intro k u2 hk
          rw [List.getElem?_append]
          by_cases hkl : k < l.length
          · rw [if_pos hkl]
            exact hnone k u2 hk
          · rw [if_neg hkl]
            by_cases hke : k = l.length
            · subst hke
              rw [Nat.sub_self]
              simp
            · rw [List.getElem?_eq_none (by simp; omega)]
              simp
      · rintro ⟨⟨u, hu⟩, hnone⟩
        rcases Nat.lt_trichotomy c l.length with hlt | heq | hgt
        · refine ⟨⟨u, ?_⟩, ?_⟩
          · rw [List.getElem?_append, if_pos hlt] at hu
            exact hu
          · intro k u2 hk hcontra
            have hkl : k < l.length := (List.getElem?_eq_some.mp hcontra).1
            have := hnone k u2 hk
            rw [List.getElem?_append, if_pos hkl] at this
            exact this hcontra
        · subst heq
          rw [List.getElem?_append, if_neg (lt_irrefl _), Nat.sub_self] at hu
          simp at hu
        · rw [List.getElem?_append, if_neg (by omega)] at hu
          rw [List.getElem?_eq_none (by simp; omega)] at hu
          simp at hu

/-- The tracker over an initial segment names exactly the owning category:
the nearest category heading above position j. -/
theorem curAfter_take_eq_some_iff (children : List GridElem) (j c : Nat) :
    curAfter none 0 (children.take j) = some c ↔
      (c < j ∧ (∃ t, children[c]? = some (GridElem.category t)) ∧
        ∀ k u, c < k → k < j → children[k]? ≠ some (GridElem.category u)) := by
  rw [curAfter_eq_some_iff]
  constructor
  · rintro ⟨⟨t, ht⟩, hnone⟩
    rw [List.getElem?_take] at ht
    by_cases hcj : c < j
    · rw [if_pos hcj] at ht
      refine ⟨hcj, ⟨t, ht⟩, ?_⟩
      intro k u hck hkj
      have := hnone k u hck
      rw [List.getElem?_take, if_pos hkj] at this
      exact this
    · rw [if_neg hcj] at ht
      simp at ht
  · rintro ⟨hcj, ⟨t, ht⟩, hnone⟩
    refine ⟨⟨t, ?_⟩, ?_⟩
    · rw [List.getElem?_take, if_pos hcj]
      exact ht
    · intro k u hck
      rw [List.getElem?_take]
      by_cases hkj : k < j
      · rw [if_pos hkj]
        exact hnone k u hck hkj
      · rw [if_neg hkj]
        simp

/-- Visibility computed for a card element. -/
theorem runFilter_card_getElem (cardMatch : String → String → String → Bool) (q : String)
    (children : List GridElem) (j : Nat) (nm sc : String)
    (hj : children[j]? = some (GridElem.card nm sc)) :
    (runFilter cardMatch q children)[j]? = some (cardMatch (jsToLower q) nm sc) := by
  simp only [runFilter]
  rw [List.getElem?_map, List.getElem?_enum, hj]
  rfl

/-- Visibility computed for a category element. -/
theorem runFilter_category_getElem (cardMatch : String → String → String → Bool) (q : String)
    (children : List GridElem) (i : Nat) (t : String)
    (hi : children[i]? = some (GridElem.category t)) :
    (runFilter cardMatch q children)[i]?
      = some ((catFlags cardMatch (jsToLower q) none 0 children).contains i) := by
  simp only [runFilter]
  rw [List.getElem?_map, List.getElem?_enum, hi]
  rfl

/-- Claim C2, as stated, is false for the multi-source script: its filter
also matches the scientific name, so with query "Ara macao" the Scarlet
Macaw card is visible although its display name does not contain the query. -/
theorem claim_C2_counterexample :
    (runFilter part002CardMatch "Ara macao" c2Grid)[1]? = some true
    ∧ jsIncludes (jsToLower "Scarlet Macaw") (jsToLower "Ara macao") = false :=
  ⟨rfl, rfl⟩

/-- Claim C2 (amended): after an input event, in script.js a card is visible
exactly when its display name contains the query case-insensitively; in the
multi-source script a card is visible exactly when its display name or its
scientific name contains the query; and for any visibility test a category
heading is visible exactly when some card belonging to it (after it and
before the next heading) is visible. -/
theorem claim_C2_amended (q : String) (children : List GridElem) :
    (∀ (j : Nat) (nm sc : String), children[j]? = some (GridElem.card nm sc) →
      ((runFilter scriptCardMatch q children)[j]? = some true ↔
        jsIncludes (jsToLower nm) (jsToLower q) = true))
    ∧ (∀ (j : Nat) (nm sc : String), children[j]? = some (GridElem.card nm sc) →
      ((runFilter part002CardMatch q children)[j]? = some true ↔
        (jsIncludes (jsToLower nm) (jsToLower q) = true
          ∨ jsIncludes (jsToLower sc) (jsToLower q) = true)))
    ∧ (∀ (cardMatch : String → String → String → Bool) (i : Nat) (t : String),
      children[i]? = some (GridElem.category t) →
      ((runFilter cardMatch q children)[i]? = some true ↔
        ∃ j nm sc, children[j]? = some (GridElem.card nm sc) ∧ i < j ∧
          (∀ k u, i < k → k < j → children[k]? ≠ some (GridElem.category u)) ∧
          cardMatch (jsToLower q) nm sc = true)) := by
  refine ⟨?_, ?_, ?_⟩
  · intro j nm sc hj
    rw [runFilter_card_getElem scriptCardMatch q children j nm sc hj]
    simp [scriptCardMatch]
  · intro j nm sc hj
    rw [runFilter_card_getElem part002CardMatch q children j nm sc hj]
    simp [part002CardMatch]
  · intro cardMatch i t hi
    rw [runFilter_category_getElem cardMatch q children i t hi, Option.some_inj]
    rw [show ((catFlags cardMatch (jsToLower q) none 0 children).contains i = true) ↔
        i ∈ catFlags cardMatch (jsToLower q) none 0 children from List.elem_iff]
    rw [mem_catFlags_iff]
    constructor
    · rintro ⟨j, nm, sc, hj, hm, hcur⟩
      rw [curAfter_take_eq_some_iff] at hcur
      exact ⟨j, nm, sc, hj, hcur.1, hcur.2.2, hm⟩
    · rintro ⟨j, nm, sc, hj, hij, hbetween, hm⟩
      refine ⟨j, nm, sc, hj, hm, ?_⟩
      rw [curAfter_take_eq_some_iff]
      exact ⟨hij, ⟨t, hi⟩, hbetween⟩

/-- Witness for claim C2 on a concrete grid and query: the matching card and
its category heading are both computed visible. -/
theorem claim_C2_witness :
    (runFilter scriptCardMatch "maca" c2Grid)[1]? = some true
    ∧ (runFilter scriptCardMatch "maca" c2Grid)[0]? = some true :=
  ⟨((claim_C2_amended "maca" c2Grid).1 1 "Scarlet Macaw" "Ara macao" rfl).mpr rfl,
   ((claim_C2_amended "maca" c2Grid).2.2 scriptCardMatch 0 "Parrots" rfl).mpr
     ⟨1, "Scarlet Macaw", "Ara macao", rfl, Nat.zero_lt_one,
      by intro k u h1 h2 _; omega, rfl⟩⟩

/-! ## Claim C6: near-top random selection -/

/-- Score components of the form if-then-else are nonnegative. -/
theorem ite_score_nonneg (c : Prop) [Decidable c] (a : ℚ) (h : 0 ≤ a) :
    (0:ℚ) ≤ if c then a else 0 := by
  split
  · exact h
  · exact le_refl 0

/-- Unsplash scores are sums of nonnegative components. -/
theorem unsplashScore_nonneg (birdName scientificName : String) (photo : UPhoto) :
    0 ≤ unsplashScore birdName scientificName photo := by
  simp only [unsplashScore]
  rw [foldl_keyword_bonus]
  have h5 : (0:ℚ) ≤ min ((photo.likes : ℚ) / 10) 5 := le_min (by positivity) (by norm_num)
  refine add_nonneg (add_nonneg (add_nonneg (add_nonneg (add_nonneg (le_refl 0) ?_) ?_) ?_) ?_) h5
  · exact ite_score_nonneg _ _ (by norm_num)
  · exact ite_score_nonneg _ _ (by norm_num)
  · positivity
  · exact ite_score_nonneg _ _ (by norm_num)

/-- Pixabay scores are sums of nonnegative components. -/
theorem pixabayScore_nonneg (birdName scientificName : String) (hit : PixHit) :
    0 ≤ pixabayScore birdName scientificName hit := by
  simp only [pixabayScore]
  rw [foldl_keyword_bonus]
  have h5 : (0:ℚ) ≤ min ((hit.likes : ℚ) / 50) 3 := le_min (by positivity) (by norm_num)
  refine add_nonneg
    (add_nonneg (add_nonneg (add_nonneg (add_nonneg (add_nonneg (le_refl 0) ?_) ?_) ?_) ?_) h5) ?_
  · exact ite_score_nonneg _ _ (by norm_num)
  · exact ite_score_nonneg _ _ (by norm_num)
  · positivity
  · exact ite_score_nonneg _ _ (by norm_num)
  · exact ite_score_nonneg _ _ (by norm_num)

/-- Stable insertion permutes the inserted element to the front. -/
theorem insertDesc_perm {α : Type} (x : α × ℚ) (l : List (α × ℚ)) :
    (insertDesc x l).Perm (x :: l) := by
  induction l with
  | nil => exact List.Perm.refl _
  | cons y ys ih =>
    by_cases h : y.2 ≤ x.2
    · simp only [insertDesc, if_pos h]
      exact List.Perm.refl _
    · simp only [insertDesc, if_neg h]
      exact (ih.cons y).trans (List.Perm.swap x y ys)

/-- The descending sort permutes its input. -/
theorem sortScored_perm {α : Type} (l : List (α × ℚ)) : (sortScored l).Perm l := by
  induction l with
  | nil => exact List.Perm.refl _
  | cons x xs ih => exact (insertDesc_perm x (sortScored xs)).trans (ih.cons x)

/-- Stable insertion keeps the list sorted by descending score. -/
theorem insertDesc_pairwise {α : Type} (x : α × ℚ) (l : List (α × ℚ))
    (h : l.Pairwise (fun a b => b.2 ≤ a.2)) :
    (insertDesc x l).Pairwise (fun a b => b.2 ≤ a.2) := by
  induction l with
  | nil => simp [insertDesc]
  | cons y ys ih =>
    obtain ⟨hy, hys⟩ := List.pairwise_cons.mp h
    by_cases hxy : y.2 ≤ x.2
    · simp only [insertDesc, if_pos hxy]
      refine List.pairwise_cons.mpr ⟨?_, h⟩
      intro z hz
      rcases List.mem_cons.mp hz with rfl | hz2
      · exact hxy
      · exact le_trans (hy z hz2) hxy
    · simp only [insertDesc, if_neg hxy]
      refine List.pairwise_cons.mpr ⟨?_, ih hys⟩
      intro z hz
      rcases List.mem_cons.mp ((insertDesc_perm x ys).mem_iff.mp hz) with rfl | hz2
      · exact (not_le.mp hxy).le
      · exact hy z hz2

/-- The sort produces a list sorted by descending score. -/
theorem sortScored_pairwise {α : Type} (l : List (α × ℚ)) :
    (sortScored l).Pairwise (fun a b => b.2 ≤ a.2) := by
  induction l with
  | nil => simp [sortScored]
  | cons x xs ih => exact insertDesc_pairwise x (sortScored xs) ih

/-- On a descending list, keeping the scores at least t keeps an initial
segment. -/
theorem filter_ge_eq_takeWhile {α : Type} (t : ℚ) (l : List (α × ℚ))
    (h : l.Pairwise (fun a b => b.2 ≤ a.2)) :
    l.filter (fun x => decide (t ≤ x.2)) = l.takeWhile (fun x => decide (t ≤ x.2)) := by
  induction l with
  | nil => rfl
  | cons y ys ih =>
    obtain ⟨hy, hys⟩ := List.pairwise_cons.mp h
    by_cases hty : t ≤ y.2
    · rw [List.filter_cons, List.takeWhile_cons, if_pos (by simpa using hty),
        if_pos (by simpa using hty), ih hys]
    · have hnil : ys.filter (fun x => decide (t ≤ x.2)) = [] := by
        rw [List.filter_eq_nil_iff]
        intro a ha
        simp only [decide_eq_true_eq]
        exact fun hta => hty (hta.trans (hy a ha))
      rw [List.filter_cons, List.takeWhile_cons, if_neg (by simpa using hty),
        if_neg (by simpa using hty), hnil]

/-- The random index stays below min(len, 3). -/
theorem pickIndex_lt (r : ℚ) (len : Nat) (hlen : 0 < len) (hr0 : 0 ≤ r) (hr1 : r < 1) :
    pickIndex r len < min len 3 := by
  have hm : 0 < min len 3 := by omega
  have hmq : (0:ℚ) < ((min len 3 : Nat) : ℚ) := by exact_mod_cast hm
  have hfl0 : (0:ℤ) ≤ ⌊r * ((min len 3 : Nat) : ℚ)⌋ := Int.floor_nonneg.mpr (by positivity)
  have hflt : ⌊r * ((min len 3 : Nat) : ℚ)⌋ < ((min len 3 : Nat) : ℤ) := by
    apply Int.floor_lt.mpr
    rw [Int.cast_natCast]
    calc r * ((min len 3 : Nat) : ℚ) < 1 * ((min len 3 : Nat) : ℚ) :=
          mul_lt_mul_of_pos_right hr1 hmq
      _ = ((min len 3 : Nat) : ℚ) := one_mul _
  simp only [pickIndex]
  exact (Int.toNat_lt hfl0).mpr hflt

/-- The random index is k exactly when the scaled draw lies in [k, k+1):
each eligible index is produced by an equal-width interval of the draw. -/
theorem pickIndex_eq_iff (r : ℚ) (len k : Nat) (hr0 : 0 ≤ r) :
    pickIndex r len = k ↔
      ((k : ℚ) ≤ r * ((min len 3 : Nat) : ℚ)
        ∧ r * ((min len 3 : Nat) : ℚ) < (k : ℚ) + 1) := by
  have hnn : (0:ℚ) ≤ r * ((min len 3 : Nat) : ℚ) := by positivity
  have hfl : (0:ℤ) ≤ ⌊r * ((min len 3 : Nat) : ℚ)⌋ := Int.floor_nonneg.mpr hnn
  simp only [pickIndex]
  constructor
  · intro hk
    have heq : ⌊r * ((min len 3 : Nat) : ℚ)⌋ = (k : ℤ) := by
      rw [← hk]
      exact (Int.toNat_of_nonneg hfl).symm
    have hb := Int.floor_eq_iff.mp heq
    simp only [Int.cast_natCast] at hb
    exact hb
  · intro hb
    have heq : ⌊r * ((min len 3 : Nat) : ℚ)⌋ = (k : ℤ) := by
      rw [Int.floor_eq_iff]
      simp only [Int.cast_natCast]
      exact hb
    rw [heq]
    simp

/-- Selection block specification: the pick is within 2 points of the top
score and among the first three entries of the score-sorted list. -/
theorem selectTop_spec {α : Type} (d : α × ℚ) (scored : List (α × ℚ)) (r : ℚ)
    (hne : scored ≠ []) (hnn : ∀ x ∈ scored, 0 ≤ x.2) (hr0 : 0 ≤ r) (hr1 : r < 1) :
    (∀ x ∈ scored, x.2 ≤ ((sortScored scored).headD d).2)
    ∧ ((sortScored scored).headD d).2 - 2 ≤ (selectTop d scored r).2
    ∧ selectTop d scored r ∈ (sortScored scored).take 3 := by
  have hperm := sortScored_perm scored
  have hlen : (sortScored scored).length = scored.length := hperm.length_eq
  have hsne : sortScored scored ≠ [] := by
    intro hnil
    apply hne
    rw [hnil] at hlen
    exact List.length_eq_zero.mp hlen.symm
  obtain ⟨h0, rest, hsorted⟩ := List.exists_cons_of_ne_nil hsne
  have hpw := sortScored_pairwise scored
  have hheadD : (sortScored scored).headD d = h0 := by rw [hsorted]; rfl
  have hmax : ∀ x ∈ scored, x.2 ≤ h0.2 := by
    intro x hx
    have hx2 : x ∈ sortScored scored := hperm.mem_iff.mpr hx
    rw [hsorted] at hx2
    rcases List.mem_cons.mp hx2 with rfl | hx3
    · exact le_refl _
    · have hpw2 := hpw
      rw [hsorted] at hpw2
      exact (List.pairwise_cons.mp hpw2).1 x hx3
  have hh0mem : h0 ∈ scored := by
    apply hperm.mem_iff.mp
    rw [hsorted]
    exact List.mem_cons_self _ _
  have hh0nn : 0 ≤ h0.2 := hnn h0 hh0mem
  have hthr : max (h0.2 - 2) 0 ≤ h0.2 := max_le (by linarith) hh0nn
  have htc : topCandidates d scored
      = (sortScored scored).filter (fun x => decide (max (h0.2 - 2) 0 ≤ x.2)) := by
    simp only [topCandidates, hheadD]
  have htcne : topCandidates d scored ≠ [] := by
    rw [htc, hsorted, List.filter_cons, if_pos (by simpa using hthr)]
    exact List.cons_ne_nil _ _
  have htclen : 0 < (topCandidates d scored).length := List.length_pos.mpr htcne
  set tc := topCandidates d scored with htcdef
  set k := pickIndex r tc.length with hkdef
  have hkmin : k < min tc.length 3 := pickIndex_lt r tc.length htclen hr0 hr1
  have hk : k < tc.length := lt_of_lt_of_le hkmin (Nat.min_le_left _ _)
  have hk3 : k < 3 := lt_of_lt_of_le hkmin (Nat.min_le_right _ _)
  have hsel : selectTop d scored r = tc.getD k d := rfl
  have hgetd : tc.getD k d = tc[k] := by
    rw [List.getD_eq_getElem?_getD, List.getElem?_eq_getElem hk]
    rfl
  have hselmem : selectTop d scored r ∈ tc := by
    rw [hsel, hgetd]
    exact List.getElem_mem hk
  have hselfilter := (List.mem_filter.mp (htc ▸ hselmem)).2
  have hselscore : max (h0.2 - 2) 0 ≤ (selectTop d scored r).2 := of_decide_eq_true hselfilter
  refine ⟨by rw [hheadD]; exact hmax, ?_, ?_⟩
  · rw [hheadD]
    exact le_trans (le_max_left _ _) hselscore
  · have htw : tc = (sortScored scored).takeWhile
        (fun x => decide (max (h0.2 - 2) 0 ≤ x.2)) := by
      rw [htc]
      exact filter_ge_eq_takeWhile _ _ hpw
    have happ : tc ++ (sortScored scored).dropWhile
        (fun x => decide (max (h0.2 - 2) 0 ≤ x.2)) = sortScored scored := by
      rw [htw]
      exact List.takeWhile_append_dropWhile _ _
    have hgets : (sortScored scored)[k]? = some (selectTop d scored r) := by
      rw [← happ, List.getElem?_append, if_pos hk, hsel, hgetd]
      exact List.getElem?_eq_getElem hk
    have htake : ((sortScored scored).take 3)[k]? = some (selectTop d scored r) := by
      rw [List.getElem?_take, if_pos hk3]
      exact hgets
    obtain ⟨hlt, heq⟩ := List.getElem?_eq_some.mp htake
    rw [← heq]
    exact List.getElem_mem hlt

/-- Claim C6: in both stock-photo paths, with a nonempty scored list the
selected candidate scores within 2 points of the maximum and lies among the
first three entries of the score-sorted list; the random index is the floor
of the draw scaled by the number of eligible picks, so each of the at most
three eligible indices corresponds to an equal-width interval of the draw. -/
theorem claim_C6 (birdName scientificName : String) (results : List UPhoto)
    (hits : List PixHit) (r : ℚ) (hru : results ≠ []) (hph : hits ≠ [])
    (hr0 : 0 ≤ r) (hr1 : r < 1) :
    ((∀ x ∈ unsplashScored birdName scientificName results,
        x.2 ≤ ((sortScored (unsplashScored birdName scientificName results)).headD
          dummyUPhotoPair).2)
      ∧ ((sortScored (unsplashScored birdName scientificName results)).headD
            dummyUPhotoPair).2 - 2
          ≤ (unsplashPick birdName scientificName results r).2
      ∧ unsplashPick birdName scientificName results r
          ∈ (sortScored (unsplashScored birdName scientificName results)).take 3)
    ∧ ((∀ x ∈ pixabayScored birdName scientificName hits,
        x.2 ≤ ((sortScored (pixabayScored birdName scientificName hits)).headD
          dummyPixPair).2)
      ∧ ((sortScored (pixabayScored birdName scientificName hits)).headD
            dummyPixPair).2 - 2
          ≤ (pixabayPick birdName scientificName hits r).2
      ∧ pixabayPick birdName scientificName hits r
          ∈ (sortScored (pixabayScored birdName scientificName hits)).take 3)
    ∧ (∀ (len k : Nat), pickIndex r len = k ↔
        ((k : ℚ) ≤ r * ((min len 3 : Nat) : ℚ)
          ∧ r * ((min len 3 : Nat) : ℚ) < (k : ℚ) + 1)) := by
  refine ⟨?_, ?_, fun len k => pickIndex_eq_iff r len k hr0⟩
  · apply selectTop_spec
    · simpa [unsplashScored] using hru
    · intro x hx
      obtain ⟨p, hp, rfl⟩ := List.mem_map.mp hx
      simpa using unsplashScore_nonneg birdName scientificName p
    · exact hr0
    · exact hr1
  · apply selectTop_spec
    · simpa [pixabayScored] using hph
    · intro x hx
      obtain ⟨h2, hp, rfl⟩ := List.mem_map.mp hx
      simpa using pixabayScore_nonneg birdName scientificName h2
    · exact hr0
    · exact hr1

/-- Witness for claim C6 on concrete one-element result lists and draw 0. -/
theorem claim_C6_witness :
    ((sortScored (unsplashScored "Resplendent Quetzal" "Pharomachrus mocinno"
          [examplePhoto])).headD dummyUPhotoPair).2 - 2
      ≤ (unsplashPick "Resplendent Quetzal" "Pharomachrus mocinno" [examplePhoto] 0).2
    ∧ unsplashPick "Resplendent Quetzal" "Pharomachrus mocinno" [examplePhoto] 0
        ∈ (sortScored (unsplashScored "Resplendent Quetzal" "Pharomachrus mocinno"
            [examplePhoto])).take 3
    ∧ pixabayPick "Resplendent Quetzal" "Pharomachrus mocinno" [examplePixHit] 0
        ∈ (sortScored (pixabayScored "Resplendent Quetzal" "Pharomachrus mocinno"
            [examplePixHit])).take 3 := by
  have h := claim_C6 "Resplendent Quetzal" "Pharomachrus mocinno" [examplePhoto]
    [examplePixHit] 0 (by decide) (by decide) le_rfl (by norm_num)
  exact ⟨h.1.2.1, h.1.2.2, h.2.1.2.2⟩
